import Mathlib

/-!
# TrustChain Campus — verification of the UI handler logic

Shallow embedding of the client-side handler logic of the TrustChain
Campus dashboard.  The React components (`ProposalForm`,
`AttendancePanel`, `VotingPanel`, `CertificatePanel`) are modelled as
pure functions from their inputs (wallet address, form fields, the
outcome of each network call) to the list of state-mutation /
side-effect events the handler performs, in order.  The vanilla-JS app
(`BlockchainService`, `AIService`, `Components`) is modelled as pure
functions over explicit state.

JavaScript conventions carried over:
* a `walletAddress` prop is `Option String`; `null`/`undefined` is
  `none` and the empty string is falsy, matching `!walletAddress`;
* `a || b` on strings is modelled by `jsOr` (empty string is falsy);
* `String.prototype.trim` is modelled by `jsTrim`, dropping whitespace
  from both ends charwise; `toLowerCase` by `jsToLower`;
* string `.length` is modelled by `String.length` (they agree on the
  ASCII texts involved here);
* numbers reached by these claims are integers/rationals, so `Nat`,
  `Int` and `ℚ` replace JS doubles (`Math.round` is Mathlib's `round`,
  which also rounds half up).
-/

namespace TrustChain

/-- The whitespace characters `String.prototype.trim` strips (space,
tab, line feed, carriage return, vertical tab, form feed, no-break
space; the rarer Unicode space separators are not modelled). -/
def isJsWhitespace (c : Char) : Bool :=
  c == ' ' || c == '\t' || c == '\n' || c == '\r' ||
  c == '\x0b' || c == '\x0c' || c == '\u00A0'

/-- Drop leading JS whitespace from a char list. -/
def dropJsWhitespace : List Char → List Char
  | [] => []
  | c :: t => if isJsWhitespace c then dropJsWhitespace t else c :: t

/-- JS `s.trim()`: strip whitespace from both ends. -/
def jsTrim (s : String) : String :=
  ⟨((dropJsWhitespace ((dropJsWhitespace s.data).reverse)).reverse)⟩

/-- JS `s.toLowerCase()` (charwise lowering). -/
def jsToLower (s : String) : String :=
  ⟨s.data.map Char.toLower⟩

/-- JS truthiness of a string: only `""` is falsy. -/
def jsStrTruthy (s : String) : Bool := s ≠ ""

/-- JS truthiness of a possibly-null string (`!walletAddress` guard). -/
def jsOptTruthy : Option String → Bool
  | none => false
  | some s => jsStrTruthy s

/-- JS `a || b` for an optional string `a` (absent or `""` falls through). -/
def jsOr (a : Option String) (b : String) : String :=
  match a with
  | some s => if jsStrTruthy s then s else b
  | none => b

/-- Type of a user-facing status message (`message.type` in the components). -/
inductive MsgType where
  | success
  | error
  deriving Repr, DecidableEq

/-- A user-facing status message, as set by `setMessage`. -/
structure Message where
  type : MsgType
  text : String
  deriving Repr, DecidableEq

/-- The JSON body of an API response, restricted to the fields the
handlers read (`transactionHash`, `txId`, `error`, `valid`), together
with the HTTP-level `response.ok` flag. -/
structure ApiResponse where
  ok : Bool
  transactionHash : Option String := none
  txId : Option String := none
  error : Option String := none
  valid : Bool := false
  deriving Repr, DecidableEq

/-- Outcome of one `fetch` call: a parsed response, or a thrown
exception (network failure / JSON parse failure), which lands in the
handler's `catch` block. -/
inductive FetchResult where
  | success (resp : ApiResponse)
  | failure
  deriving Repr, DecidableEq

/-- One observable step a handler performs: a React state setter, a
`fetch` call, or a `console.error` log. -/
inductive Event where
  | setMessage (m : Option Message)
  | setTransactionHash (h : Option String)
  | setBusy (b : Bool)
  | setLoading (b : Bool)
  | setTitle (s : String)
  | setDescription (s : String)
  | fetchCall (method : String) (url : String)
  | consoleError (context : String)
  | setAttendanceStatus
  | setAttendanceHistory
  | setProposals
  | setSelectedProposal
  | setCertificateDetails (present : Bool)
  deriving Repr, DecidableEq

/-- The component-local UI state the events act on. `busy` stands for
the per-component in-flight flag (`isSubmitting` / `isMarking` /
`isVoting` / `isVerifying`). -/
structure UIState where
  message : Option Message := none
  transactionHash : Option String := none
  busy : Bool := false
  loading : Bool := false
  title : String := ""
  description : String := ""
  certificateDetails : Bool := false
  deriving Repr, DecidableEq

/-- Apply one event to the UI state. -/
def applyEvent (s : UIState) : Event → UIState
  | .setMessage m => { s with message := m }
  | .setTransactionHash h => { s with transactionHash := h }
  | .setBusy b => { s with busy := b }
  | .setLoading b => { s with loading := b }
  | .setTitle t => { s with title := t }
  | .setDescription d => { s with description := d }
  | .setCertificateDetails p => { s with certificateDetails := p }
  | _ => s

/-- Run a trace of events from a starting UI state. -/
def runTrace (s : UIState) (tr : List Event) : UIState :=
  tr.foldl applyEvent s

theorem runTrace_append (s : UIState) (a b : List Event) :
    runTrace s (a ++ b) = runTrace (runTrace s a) b :=
  List.foldl_append ..

/-- Is this event a `fetch` call? -/
def isFetch : Event → Bool
  | .fetchCall _ _ => true
  | _ => false

/-- Is this event a POST `fetch` to the given (mutating) endpoint? -/
def isMutatingFetch (url : String) : Event → Bool
  | .fetchCall m u => m == "POST" && u == url
  | _ => false

/-- Is this event a `console.error` log? -/
def isConsoleError : Event → Bool
  | .consoleError _ => true
  | _ => false

/-- Is this event a write to the in-flight flag? -/
def isBusyEvent : Event → Bool
  | .setBusy _ => true
  | _ => false

/-- Number of `fetch` calls in a trace. -/
def countFetches (tr : List Event) : Nat := (tr.filter isFetch).length

/-- Number of POST `fetch` calls to the given endpoint in a trace. -/
def countMutatingFetches (url : String) (tr : List Event) : Nat :=
  (tr.filter (isMutatingFetch url)).length

/-- Number of `console.error` logs in a trace. -/
def countConsoleErrors (tr : List Event) : Nat :=
  (tr.filter isConsoleError).length

/-- The message set by every handler when the wallet prop is falsy. -/
def walletErrorMsg : Message := ⟨.error, "Please connect your wallet first"⟩

/-- The message set in every handler's `catch` block. -/
def networkErrorMsg : Message :=
  ⟨.error, "Network error. Please check your connection and try again."⟩

/-- The transaction-hash string displayed on success:
`data.transactionHash || data.txId || 'TX-' + Date.now()`. -/
def txHashDisplay (resp : ApiResponse) (now : Nat) : String :=
  jsOr resp.transactionHash (jsOr resp.txId ("TX-" ++ toString now))

/-! ## ProposalForm -/

/-- `ProposalForm.validateForm`, returning the validation error message
(`none` means the form is valid). -/
def validateForm (title description : String) : Option Message :=
  if jsTrim title = "" then
    some ⟨.error, "Please enter a proposal title"⟩
  else if (jsTrim title).length < 5 then
    some ⟨.error, "Title must be at least 5 characters"⟩
  else if jsTrim description = "" then
    some ⟨.error, "Please enter a proposal description"⟩
  else if (jsTrim description).length < 20 then
    some ⟨.error, "Description must be at least 20 characters"⟩
  else
    none

/-- `ProposalForm.handleSubmit` as an event trace. `net` is the outcome
of the POST `/api/proposals` fetch; `now` is `Date.now()`. -/
def proposalFormSubmitTrace (walletAddress : Option String)
    (title description : String) (net : FetchResult) (now : Nat) :
    List Event :=
  [.setMessage none, .setTransactionHash none] ++
  (if jsOptTruthy walletAddress = false then
    [.setMessage (some walletErrorMsg)]
  else match validateForm title description with
    | some m => [.setMessage (some m)]
    | none =>
      [.setBusy true, .fetchCall "POST" "/api/proposals"] ++
      (match net with
        | .success resp =>
          if resp.ok then
            [.setMessage (some ⟨.success, "Proposal created successfully!"⟩),
             .setTransactionHash (some (txHashDisplay resp now)),
             .setTitle "", .setDescription ""]
          else
            [.setMessage (some ⟨.error,
              jsOr resp.error "Failed to create proposal. Please try again."⟩)]
        | .failure =>
          [.consoleError "Error creating proposal:",
           .setMessage (some networkErrorMsg)]) ++
      [.setBusy false])

/-- The submit button's `disabled` attribute:
`isSubmitting || !walletAddress`. -/
def submitButtonDisabled (isSubmitting : Bool)
    (walletAddress : Option String) : Bool :=
  isSubmitting || !(jsOptTruthy walletAddress)

/-! ## AttendancePanel -/

/-- `AttendancePanel.fetchAttendanceStatus` as an event trace (it has
its own try/catch, so its failures never escape to the caller). -/
def fetchAttendanceStatusTrace (walletAddress : String)
    (net : FetchResult) : List Event :=
  [.fetchCall "GET" ("/api/attendance?walletAddress=" ++ walletAddress)] ++
  (match net with
    | .success resp =>
      if resp.ok then [.setAttendanceStatus, .setAttendanceHistory] else []
    | .failure => [.consoleError "Error fetching attendance status:"])

/-- `AttendancePanel.handleMarkAttendance` as an event trace. `net` is
the outcome of the POST `/api/attendance` fetch, `refreshNet` of the
status refresh it awaits on success. -/
def markAttendanceTrace (walletAddress : Option String)
    (net refreshNet : FetchResult) (now : Nat) : List Event :=
  [.setMessage none, .setTransactionHash none] ++
  (if jsOptTruthy walletAddress = false then
    [.setMessage (some walletErrorMsg)]
  else
    [.setBusy true, .fetchCall "POST" "/api/attendance"] ++
    (match net with
      | .success resp =>
        if resp.ok then
          [.setMessage (some ⟨.success, "Attendance marked successfully!"⟩),
           .setTransactionHash (some (txHashDisplay resp now))] ++
          fetchAttendanceStatusTrace (walletAddress.getD "") refreshNet
        else
          [.setMessage (some ⟨.error,
            jsOr resp.error "Failed to mark attendance. Please try again."⟩)]
      | .failure =>
        [.consoleError "Error marking attendance:",
         .setMessage (some networkErrorMsg)]) ++
    [.setBusy false])

/-! ## VotingPanel (second component in AttendancePanel.jsx) -/

/-- `VotingPanel.fetchProposalDetails` as an event trace (own
try/catch). -/
def fetchProposalDetailsTrace (proposalId : Nat) (net : FetchResult) :
    List Event :=
  [.fetchCall "GET" ("/api/proposals/" ++ toString proposalId)] ++
  (match net with
    | .success resp => if resp.ok then [.setSelectedProposal] else []
    | .failure => [.consoleError "Error fetching proposal details:"])

/-- `VotingPanel.fetchProposals` as an event trace (own try/catch and
its own `isLoading` flag). -/
def fetchProposalsTrace (net : FetchResult) : List Event :=
  [.setLoading true, .fetchCall "GET" "/api/proposals"] ++
  (match net with
    | .success resp =>
      if resp.ok then [.setProposals]
      else [.consoleError "Failed to fetch proposals"]
    | .failure => [.consoleError "Error fetching proposals:"]) ++
  [.setLoading false]

/-- `VotingPanel.handleVote` as an event trace. `net` is the outcome of
the POST `/api/vote` fetch; `detailsNet` and `listNet` are the outcomes
of the two refresh fetches awaited on success. -/
def handleVoteTrace (walletAddress : Option String) (proposalId : Nat)
    (vote : String) (net detailsNet listNet : FetchResult) (now : Nat) :
    List Event :=
  [.setMessage none, .setTransactionHash none] ++
  (if jsOptTruthy walletAddress = false then
    [.setMessage (some walletErrorMsg)]
  else
    [.setBusy true, .fetchCall "POST" "/api/vote"] ++
    (match net with
      | .success resp =>
        if resp.ok then
          [.setMessage (some ⟨.success,
             "Vote \"" ++ vote ++ "\" submitted successfully!"⟩),
           .setTransactionHash (some (txHashDisplay resp now))] ++
          fetchProposalDetailsTrace proposalId detailsNet ++
          fetchProposalsTrace listNet
        else
          [.setMessage (some ⟨.error,
            jsOr resp.error "Failed to submit vote. Please try again."⟩)]
      | .failure =>
        [.consoleError "Error voting:",
         .setMessage (some networkErrorMsg)]) ++
    [.setBusy false])

/-- A vote button's `disabled` attribute: `isVoting || !walletAddress`. -/
def voteButtonDisabled (isVoting : Bool) (walletAddress : Option String) :
    Bool :=
  isVoting || !(jsOptTruthy walletAddress)

/-! ## CertificatePanel -/

/-- `CertificatePanel.handleVerify` as an event trace. `net` is the
outcome of the POST `/api/certificate/verify` fetch. -/
def handleVerifyTrace (certificateId : String) (net : FetchResult) :
    List Event :=
  [.setMessage none, .setCertificateDetails false] ++
  (if jsTrim certificateId = "" then
    [.setMessage (some ⟨.error, "Please enter a certificate ID"⟩)]
  else
    [.setBusy true, .fetchCall "POST" "/api/certificate/verify"] ++
    (match net with
      | .success resp =>
        if resp.ok then
          if resp.valid then
            [.setMessage (some ⟨.success, "Certificate verified successfully!"⟩),
             .setCertificateDetails true]
          else
            [.setMessage (some ⟨.error, "Certificate not found or invalid"⟩)]
        else
          [.setMessage (some ⟨.error,
            jsOr resp.error "Failed to verify certificate. Please try again."⟩)]
      | .failure =>
        [.consoleError "Error verifying certificate:",
         .setMessage (some networkErrorMsg)]) ++
    [.setBusy false])

/-! ## Vanilla app (part_001): AIService, Components, BlockchainService -/

/-- Is the char-list `n` a leading segment of the char-list `h`?
(Used to model JS `String.prototype.includes`.) -/
def startsWithChars : List Char → List Char → Bool
  | _, [] => true
  | [], _ :: _ => false
  | c :: cs, d :: ds => d == c && startsWithChars cs ds

/-- Does the char-list `h` contain `n` as a contiguous segment? -/
def containsChars : List Char → List Char → Bool
  | [], n => n.isEmpty
  | h@(_ :: t), n => startsWithChars h n || containsChars t n

/-- JS `hay.includes(needle)`. -/
def strIncludes (hay needle : String) : Bool :=
  containsChars hay.data needle.data

/-- The positive keyword list of `AIService.getSentiment`. -/
def positiveWords : List String :=
  ["upgrade", "improve", "budget", "good", "benefit"]

/-- The negative keyword list of `AIService.getSentiment`. -/
def negativeWords : List String :=
  ["cut", "remove", "restrict", "bad", "cost"]

/-- `AIService.getSentiment`: keyword-count score (+0.2 per positive
keyword contained, −0.2 per negative keyword contained), clamped to
[−1, 1]. Scores are exact rationals in place of JS doubles; the final
clamp `Math.min(Math.max(score, -1), 1)` is `min`/`max` on ℚ. -/
def getSentiment (proposalText : String) : ℚ :=
  let lower := jsToLower proposalText
  let score : ℚ :=
    positiveWords.foldl
      (fun acc w => if strIncludes lower w then acc + 1/5 else acc) 0
  let score : ℚ :=
    negativeWords.foldl
      (fun acc w => if strIncludes lower w then acc - 1/5 else acc) score
  min (max score (-1)) 1

/-- `Components.ProposalDetail` yes-percentage:
`totalVotes === 0 ? 0 : Math.round(votesYes / totalVotes * 100)`. -/
def proposalDetailYesPercent (votesYes votesNo : Nat) : ℤ :=
  let totalVotes := votesYes + votesNo
  if totalVotes = 0 then 0 else round ((votesYes : ℚ) / totalVotes * 100)

/-- `Components.ProposalDetail` no-percentage. -/
def proposalDetailNoPercent (votesYes votesNo : Nat) : ℤ :=
  let totalVotes := votesYes + votesNo
  if totalVotes = 0 then 0 else round ((votesNo : ℚ) / totalVotes * 100)

/-- JS `a || b` for an optional number (absent and `0` are falsy). -/
def jsNumOr (a : Option Nat) (b : Nat) : Nat :=
  match a with
  | some n => if n ≠ 0 then n else b
  | none => b

/-- The denominator of the VotingPanel progress-bar width:
`Math.max((yesVotes || 0) + (noVotes || 0), 1)`. -/
def votingBarDenominator (yesVotes noVotes : Option Nat) : Nat :=
  max (jsNumOr yesVotes 0 + jsNumOr noVotes 0) 1

/-- The VotingPanel yes progress-bar width (percent). -/
def votingBarYesWidth (yesVotes noVotes : Option Nat) : ℚ :=
  (jsNumOr yesVotes 0 : ℚ) / (votingBarDenominator yesVotes noVotes) * 100

/-- A proposal of the vanilla app's mock store, with all the fields the
mock data carries (`deadline` as an epoch-millisecond integer). -/
structure MockProposal where
  id : Nat
  title : String
  description : String
  creator : String
  status : String
  deadline : Int
  votesYes : Nat
  votesNo : Nat
  quorum : Nat
  category : String
  comments : Nat
  deriving Repr, DecidableEq

/-- The in-place tally update of `BlockchainService.submitVote`:
`Store.state.proposals.find(p => p.id == proposalId)` locates the first
proposal with the matching id, then one of its two tallies is
incremented (`votesYes` when the vote is `'yes'`, `votesNo` otherwise). -/
def submitVoteUpdate (proposals : List MockProposal) (proposalId : Nat)
    (vote : String) : List MockProposal :=
  match proposals with
  | [] => []
  | p :: ps =>
    if p.id == proposalId then
      (if vote == "yes" then { p with votesYes := p.votesYes + 1 }
       else { p with votesNo := p.votesNo + 1 }) :: ps
    else
      p :: submitVoteUpdate ps proposalId vote

/-- The slice of the vanilla store `BlockchainService.submitVote`
touches: the connected flag, the proposal list, and the number of
entries in the transaction history. -/
structure VoteStoreState where
  isConnected : Bool
  proposals : List MockProposal
  transactionCount : Nat
  deriving Repr, DecidableEq

/-- `BlockchainService.submitVote`'s effect on the store: an early
return when no wallet is connected, otherwise the optimistic tally
update plus one new transaction record. -/
def submitVote (st : VoteStoreState) (proposalId : Nat) (vote : String) :
    VoteStoreState :=
  if st.isConnected = false then st
  else
    { st with
      proposals := submitVoteUpdate st.proposals proposalId vote
      transactionCount := st.transactionCount + 1 }

/-! ## Claim theorems -/

/-- Claim C1: for every mutating action (submitting a proposal via
`ProposalForm.handleSubmit`, voting via `VotingPanel.handleVote`,
marking attendance via `AttendancePanel.handleMarkAttendance`), if the
`walletAddress` prop is absent (null or empty), the handler sets the
error message "Please connect your wallet first" and returns without
issuing any network request. -/
theorem absentWallet_blocks_all_mutations (s0 : UIState)
    (walletAddress : Option String)
    (hw : jsOptTruthy walletAddress = false)
    (title description : String) (net refreshNet detailsNet listNet : FetchResult)
    (proposalId : Nat) (vote : String) (now : Nat) :
    ((runTrace s0 (proposalFormSubmitTrace walletAddress title description net now)).message
        = some walletErrorMsg ∧
      countFetches (proposalFormSubmitTrace walletAddress title description net now) = 0) ∧
    ((runTrace s0 (handleVoteTrace walletAddress proposalId vote net detailsNet listNet now)).message
        = some walletErrorMsg ∧
      countFetches (handleVoteTrace walletAddress proposalId vote net detailsNet listNet now) = 0) ∧
    ((runTrace s0 (markAttendanceTrace walletAddress net refreshNet now)).message
        = some walletErrorMsg ∧
      countFetches (markAttendanceTrace walletAddress net refreshNet now) = 0) := by
  simp [proposalFormSubmitTrace, handleVoteTrace, markAttendanceTrace, hw,
    runTrace, applyEvent, countFetches, isFetch, List.filter]

theorem absentWallet_blocks_all_mutations_witness :
    jsOptTruthy none = false ∧
    ((runTrace {} (proposalFormSubmitTrace none "Hello Title" "A sufficiently long description." .failure 7)).message
        = some walletErrorMsg ∧
      countFetches (proposalFormSubmitTrace none "Hello Title" "A sufficiently long description." .failure 7) = 0) ∧
    ((runTrace {} (handleVoteTrace none 3 "yes" .failure .failure .failure 7)).message
        = some walletErrorMsg ∧
      countFetches (handleVoteTrace none 3 "yes" .failure .failure .failure 7) = 0) ∧
    ((runTrace {} (markAttendanceTrace none .failure .failure 7)).message
        = some walletErrorMsg ∧
      countFetches (markAttendanceTrace none .failure .failure 7) = 0) :=
  ⟨by decide,
    absentWallet_blocks_all_mutations {} none (by decide)
      "Hello Title" "A sufficiently long description." .failure .failure .failure .failure 3 "yes" 7⟩

/-- Helper: with a connected wallet, a validation error stops
`handleSubmit` before the fetch and becomes the displayed message. -/
theorem submitTrace_of_validation_error (s0 : UIState)
    (walletAddress : Option String) (hw : jsOptTruthy walletAddress = true)
    (title description : String) (m : Message) (net : FetchResult) (now : Nat)
    (hv : validateForm title description = some m) :
    (runTrace s0 (proposalFormSubmitTrace walletAddress title description net now)).message
      = some m ∧
    countFetches (proposalFormSubmitTrace walletAddress title description net now) = 0 := by
  simp [proposalFormSubmitTrace, hw, hv, runTrace, applyEvent, countFetches,
    isFetch, List.filter]

/-- Claim C2: in `ProposalForm`, for every title whose trimmed length is
less than 5, submitting the form sets an error validation message and
returns before any network request is sent. -/
theorem shortTitle_blocks_submit (s0 : UIState)
    (walletAddress : Option String) (hw : jsOptTruthy walletAddress = true)
    (title description : String)
    (hlen : (jsTrim title).length < 5) (net : FetchResult) (now : Nat) :
    (∃ txt, validateForm title description = some ⟨.error, txt⟩ ∧
      (runTrace s0 (proposalFormSubmitTrace walletAddress title description net now)).message
        = some ⟨.error, txt⟩) ∧
    countFetches (proposalFormSubmitTrace walletAddress title description net now) = 0 := by
  have hv : ∃ txt, validateForm title description = some ⟨.error, txt⟩ := by
    unfold validateForm
    by_cases h : jsTrim title = ""
    · exact ⟨"Please enter a proposal title", by simp [h]⟩
    · exact ⟨"Title must be at least 5 characters", by simp [h, hlen]⟩
  obtain ⟨txt, hv⟩ := hv
  exact ⟨⟨txt, hv,
      (submitTrace_of_validation_error s0 walletAddress hw title description _ net now hv).1⟩,
    (submitTrace_of_validation_error s0 walletAddress hw title description _ net now hv).2⟩

theorem shortTitle_blocks_submit_witness :
    jsOptTruthy (some "WALLET1") = true ∧ (jsTrim " Hey ").length < 5 ∧
    ((∃ txt, validateForm " Hey " "A long enough description here." = some ⟨.error, txt⟩ ∧
        (runTrace {} (proposalFormSubmitTrace (some "WALLET1") " Hey "
          "A long enough description here." .failure 7)).message = some ⟨.error, txt⟩) ∧
      countFetches (proposalFormSubmitTrace (some "WALLET1") " Hey "
        "A long enough description here." .failure 7) = 0) :=
  ⟨by decide, by decide,
    shortTitle_blocks_submit {} (some "WALLET1") (by decide) " Hey "
      "A long enough description here." (by decide) .failure 7⟩

/-- Claim C3: in `ProposalForm`, for every description whose trimmed
length is less than 20 (with a valid title), submitting the form sets an
error validation message and returns before any network request is
sent. -/
theorem shortDescription_blocks_submit (s0 : UIState)
    (walletAddress : Option String) (hw : jsOptTruthy walletAddress = true)
    (title description : String)
    (htitle : 5 ≤ (jsTrim title).length)
    (hlen : (jsTrim description).length < 20) (net : FetchResult) (now : Nat) :
    (∃ txt, validateForm title description = some ⟨.error, txt⟩ ∧
      (runTrace s0 (proposalFormSubmitTrace walletAddress title description net now)).message
        = some ⟨.error, txt⟩) ∧
    countFetches (proposalFormSubmitTrace walletAddress title description net now) = 0 := by
  have htne : ¬ jsTrim title = "" := by
    intro h
    rw [h] at htitle
    exact absurd htitle (by decide)
  have htlen : ¬ (jsTrim title).length < 5 := Nat.not_lt.mpr htitle
  have hv : ∃ txt, validateForm title description = some ⟨.error, txt⟩ := by
    unfold validateForm
    by_cases h : jsTrim description = ""
    · exact ⟨"Please enter a proposal description", by simp [htne, htlen, h]⟩
    · exact ⟨"Description must be at least 20 characters", by simp [htne, htlen, h, hlen]⟩
  obtain ⟨txt, hv⟩ := hv
  exact ⟨⟨txt, hv,
      (submitTrace_of_validation_error s0 walletAddress hw title description _ net now hv).1⟩,
    (submitTrace_of_validation_error s0 walletAddress hw title description _ net now hv).2⟩

theorem shortDescription_blocks_submit_witness :
    jsOptTruthy (some "WALLET1") = true ∧ 5 ≤ (jsTrim "Hello Title").length ∧
    (jsTrim "too short").length < 20 ∧
    ((∃ txt, validateForm "Hello Title" "too short" = some ⟨.error, txt⟩ ∧
        (runTrace {} (proposalFormSubmitTrace (some "WALLET1") "Hello Title"
          "too short" .failure 7)).message = some ⟨.error, txt⟩) ∧
      countFetches (proposalFormSubmitTrace (some "WALLET1") "Hello Title"
        "too short" .failure 7) = 0) :=
  ⟨by decide, by decide, by decide,
    shortDescription_blocks_submit {} (some "WALLET1") (by decide) "Hello Title"
      "too short" (by decide) (by decide) .failure 7⟩

/-- Claim C4: for every 2xx API response to a proposal submission, vote,
or attendance marking, the handler sets a success message and sets the
displayed transaction hash to the response's `transactionHash` field,
else its `txId` field, else the placeholder `TX-` ++ timestamp when the
backend omits both. -/
theorem successResponse_sets_success_and_hash (s0 : UIState)
    (walletAddress : Option String) (hw : jsOptTruthy walletAddress = true)
    (title description : String) (hv : validateForm title description = none)
    (resp : ApiResponse) (hok : resp.ok = true)
    (refreshNet detailsNet listNet : FetchResult)
    (proposalId : Nat) (vote : String) (now : Nat) :
    ((runTrace s0 (proposalFormSubmitTrace walletAddress title description (.success resp) now)).message
        = some ⟨.success, "Proposal created successfully!"⟩ ∧
      (runTrace s0 (proposalFormSubmitTrace walletAddress title description (.success resp) now)).transactionHash
        = some (txHashDisplay resp now)) ∧
    ((runTrace s0 (handleVoteTrace walletAddress proposalId vote (.success resp) detailsNet listNet now)).message
        = some ⟨.success, "Vote \"" ++ vote ++ "\" submitted successfully!"⟩ ∧
      (runTrace s0 (handleVoteTrace walletAddress proposalId vote (.success resp) detailsNet listNet now)).transactionHash
        = some (txHashDisplay resp now)) ∧
    ((runTrace s0 (markAttendanceTrace walletAddress (.success resp) refreshNet now)).message
        = some ⟨.success, "Attendance marked successfully!"⟩ ∧
      (runTrace s0 (markAttendanceTrace walletAddress (.success resp) refreshNet now)).transactionHash
        = some (txHashDisplay resp now)) ∧
    (∀ h, resp.transactionHash = some h → jsStrTruthy h = true →
      txHashDisplay resp now = h) ∧
    (∀ t, jsOptTruthy resp.transactionHash = false → resp.txId = some t →
      jsStrTruthy t = true → txHashDisplay resp now = t) ∧
    (resp.transactionHash = none → resp.txId = none →
      txHashDisplay resp now = "TX-" ++ toString now) := by
  refine ⟨?_, ?_, ?_, ?_, ?_, ?_⟩
  · constructor <;>
      simp [proposalFormSubmitTrace, hw, hv, hok, runTrace, applyEvent]
  · cases detailsNet with
    | success r2 =>
      cases listNet with
      | success r3 =>
        by_cases h2 : r2.ok <;> by_cases h3 : r3.ok <;> constructor <;>
          simp [handleVoteTrace, fetchProposalDetailsTrace, fetchProposalsTrace,
            hw, hok, h2, h3, runTrace, applyEvent]
      | failure =>
        by_cases h2 : r2.ok <;> constructor <;>
          simp [handleVoteTrace, fetchProposalDetailsTrace, fetchProposalsTrace,
            hw, hok, h2, runTrace, applyEvent]
    | failure =>
      cases listNet with
      | success r3 =>
        by_cases h3 : r3.ok <;> constructor <;>
          simp [handleVoteTrace, fetchProposalDetailsTrace, fetchProposalsTrace,
            hw, hok, h3, runTrace, applyEvent]
      | failure =>
        constructor <;>
          simp [handleVoteTrace, fetchProposalDetailsTrace, fetchProposalsTrace,
            hw, hok, runTrace, applyEvent]
  · cases refreshNet with
    | success r2 =>
      by_cases h2 : r2.ok <;> constructor <;>
        simp [markAttendanceTrace, fetchAttendanceStatusTrace, hw, hok, h2,
          runTrace, applyEvent]
    | failure =>
      constructor <;>
        simp [markAttendanceTrace, fetchAttendanceStatusTrace, hw, hok,
          runTrace, applyEvent]
  · intro h hh htr
    simp [txHashDisplay, jsOr, hh, htr]
  · intro t hfalsy ht htr
    cases hx : resp.transactionHash with
    | none => simp [txHashDisplay, jsOr, hx, ht, htr]
    | some s =>
      rw [hx] at hfalsy
      simp [jsOptTruthy, jsStrTruthy] at hfalsy
      have ht' : ¬ t = "" := by simpa [jsStrTruthy] using htr
      simp [txHashDisplay, jsOr, hx, hfalsy, ht, ht', jsStrTruthy]
  · intro h1 h2
    simp [txHashDisplay, jsOr, h1, h2]

theorem successResponse_sets_success_and_hash_witness :
    jsOptTruthy (some "WALLET1") = true ∧
    validateForm "Hello Title" "A sufficiently long description." = none ∧
    ApiResponse.ok { ok := true, txId := some "T9" } = true ∧
    ((runTrace {} (proposalFormSubmitTrace (some "WALLET1") "Hello Title"
        "A sufficiently long description."
        (.success { ok := true, txId := some "T9" }) 7)).message
          = some ⟨.success, "Proposal created successfully!"⟩ ∧
      (runTrace {} (proposalFormSubmitTrace (some "WALLET1") "Hello Title"
        "A sufficiently long description."
        (.success { ok := true, txId := some "T9" }) 7)).transactionHash
          = some (txHashDisplay { ok := true, txId := some "T9" } 7)) ∧
    ((runTrace {} (handleVoteTrace (some "WALLET1") 3 "yes"
        (.success { ok := true, txId := some "T9" }) .failure .failure 7)).message
          = some ⟨.success, "Vote \"yes\" submitted successfully!"⟩ ∧
      (runTrace {} (handleVoteTrace (some "WALLET1") 3 "yes"
        (.success { ok := true, txId := some "T9" }) .failure .failure 7)).transactionHash
          = some (txHashDisplay { ok := true, txId := some "T9" } 7)) ∧
    ((runTrace {} (markAttendanceTrace (some "WALLET1")
        (.success { ok := true, txId := some "T9" }) .failure 7)).message
          = some ⟨.success, "Attendance marked successfully!"⟩ ∧
      (runTrace {} (markAttendanceTrace (some "WALLET1")
        (.success { ok := true, txId := some "T9" }) .failure 7)).transactionHash
          = some (txHashDisplay { ok := true, txId := some "T9" } 7)) ∧
    (∀ h, ApiResponse.transactionHash { ok := true, txId := some "T9" } = some h →
      jsStrTruthy h = true → txHashDisplay { ok := true, txId := some "T9" } 7 = h) ∧
    (∀ t, jsOptTruthy (ApiResponse.transactionHash { ok := true, txId := some "T9" }) = false →
      ApiResponse.txId { ok := true, txId := some "T9" } = some t →
      jsStrTruthy t = true → txHashDisplay { ok := true, txId := some "T9" } 7 = t) ∧
    (ApiResponse.transactionHash { ok := true, txId := some "T9" } = none →
      ApiResponse.txId { ok := true, txId := some "T9" } = none →
      txHashDisplay { ok := true, txId := some "T9" } 7 = "TX-" ++ toString 7) :=
  ⟨by decide, by decide, by decide,
    successResponse_sets_success_and_hash {} (some "WALLET1") (by decide)
      "Hello Title" "A sufficiently long description." (by decide)
      { ok := true, txId := some "T9" } (by decide) .failure .failure .failure
      3 "yes" 7⟩

/-- Claim C5: for every non-2xx API response to a proposal submission,
vote, or certificate verification, the handler sets an error message
equal to the response body's `error` field when present, and otherwise a
generic fallback string. -/
theorem errorResponse_surfaces_error_text (s0 : UIState)
    (walletAddress : Option String) (hw : jsOptTruthy walletAddress = true)
    (title description : String) (hv : validateForm title description = none)
    (certificateId : String) (hcert : ¬ jsTrim certificateId = "")
    (resp : ApiResponse) (hok : resp.ok = false)
    (detailsNet listNet : FetchResult) (proposalId : Nat) (vote : String)
    (now : Nat) :
    (runTrace s0 (proposalFormSubmitTrace walletAddress title description (.success resp) now)).message
        = some ⟨.error, jsOr resp.error "Failed to create proposal. Please try again."⟩ ∧
    (runTrace s0 (handleVoteTrace walletAddress proposalId vote (.success resp) detailsNet listNet now)).message
        = some ⟨.error, jsOr resp.error "Failed to submit vote. Please try again."⟩ ∧
    (runTrace s0 (handleVerifyTrace certificateId (.success resp))).message
        = some ⟨.error, jsOr resp.error "Failed to verify certificate. Please try again."⟩ ∧
    (∀ e f, resp.error = some e → jsStrTruthy e = true → jsOr resp.error f = e) ∧
    (∀ f, resp.error = none → jsOr resp.error f = f) := by
  refine ⟨?_, ?_, ?_, ?_, ?_⟩
  · simp [proposalFormSubmitTrace, hw, hv, hok, runTrace, applyEvent]
  · simp [handleVoteTrace, hw, hok, runTrace, applyEvent]
  · simp [handleVerifyTrace, hcert, hok, runTrace, applyEvent]
  · intro e f he htr
    have he' : ¬ e = "" := by simpa [jsStrTruthy] using htr
    simp [jsOr, he, he', jsStrTruthy]
  · intro f he
    simp [jsOr, he]

theorem errorResponse_surfaces_error_text_witness :
    jsOptTruthy (some "WALLET1") = true ∧
    validateForm "Hello Title" "A sufficiently long description." = none ∧
    ¬ jsTrim "CERT-1" = "" ∧
    ApiResponse.ok { ok := false, error := some "quota exceeded" } = false ∧
    ((runTrace {} (proposalFormSubmitTrace (some "WALLET1") "Hello Title"
        "A sufficiently long description."
        (.success { ok := false, error := some "quota exceeded" }) 7)).message
          = some ⟨.error, jsOr (some "quota exceeded")
              "Failed to create proposal. Please try again."⟩ ∧
      (runTrace {} (handleVoteTrace (some "WALLET1") 3 "yes"
        (.success { ok := false, error := some "quota exceeded" }) .failure .failure 7)).message
          = some ⟨.error, jsOr (some "quota exceeded")
              "Failed to submit vote. Please try again."⟩ ∧
      (runTrace {} (handleVerifyTrace "CERT-1"
        (.success { ok := false, error := some "quota exceeded" }))).message
          = some ⟨.error, jsOr (some "quota exceeded")
              "Failed to verify certificate. Please try again."⟩ ∧
      (∀ e f, ApiResponse.error { ok := false, error := some "quota exceeded" } = some e →
        jsStrTruthy e = true →
        jsOr (ApiResponse.error { ok := false, error := some "quota exceeded" }) f = e) ∧
      (∀ f, ApiResponse.error { ok := false, error := some "quota exceeded" } = none →
        jsOr (ApiResponse.error { ok := false, error := some "quota exceeded" }) f = f)) :=
  ⟨by decide, by decide, by decide, by decide,
    errorResponse_surfaces_error_text {} (some "WALLET1") (by decide)
      "Hello Title" "A sufficiently long description." (by decide)
      "CERT-1" (by decide) { ok := false, error := some "quota exceeded" }
      (by decide) .failure .failure 3 "yes" 7⟩

/-- Claim C6: every invocation of `ProposalForm.handleSubmit` that
reaches the network call sets the submitting flag true before the
request, issues exactly one request, and resets the flag false as its
final step whether the request succeeded, failed, or threw; and the
submit button is disabled whenever that flag is true. -/
theorem submit_flag_lifecycle (s0 : UIState)
    (walletAddress : Option String) (hw : jsOptTruthy walletAddress = true)
    (title description : String) (hv : validateForm title description = none)
    (net : FetchResult) (now : Nat) :
    (∃ mid,
      proposalFormSubmitTrace walletAddress title description net now =
        [.setMessage none, .setTransactionHash none, .setBusy true,
         .fetchCall "POST" "/api/proposals"] ++ mid ++ [.setBusy false] ∧
      mid.all (fun e => !(isBusyEvent e) && !(isFetch e)) = true) ∧
    countFetches (proposalFormSubmitTrace walletAddress title description net now) = 1 ∧
    (runTrace s0 (proposalFormSubmitTrace walletAddress title description net now)).busy = false ∧
    (∀ w, submitButtonDisabled true w = true) := by
  refine ⟨?_, ?_, ?_, ?_⟩
  · cases net with
    | success resp =>
      by_cases h : resp.ok
      · exact ⟨[.setMessage (some ⟨.success, "Proposal created successfully!"⟩),
          .setTransactionHash (some (txHashDisplay resp now)),
          .setTitle "", .setDescription ""],
          by simp [proposalFormSubmitTrace, hw, hv, h],
          by simp [isBusyEvent, isFetch]⟩
      · exact ⟨[.setMessage (some ⟨.error,
            jsOr resp.error "Failed to create proposal. Please try again."⟩)],
          by simp [proposalFormSubmitTrace, hw, hv, h],
          by simp [isBusyEvent, isFetch]⟩
    | failure =>
      exact ⟨[.consoleError "Error creating proposal:",
          .setMessage (some networkErrorMsg)],
        by simp [proposalFormSubmitTrace, hw, hv],
        by simp [isBusyEvent, isFetch]⟩
  · cases net with
    | success resp =>
      by_cases h : resp.ok <;>
        simp [proposalFormSubmitTrace, hw, hv, h, countFetches, isFetch,
          List.filter]
    | failure =>
      simp [proposalFormSubmitTrace, hw, hv, countFetches, isFetch, List.filter]
  · cases net with
    | success resp =>
      by_cases h : resp.ok <;>
        simp [proposalFormSubmitTrace, hw, hv, h, runTrace, applyEvent]
    | failure =>
      simp [proposalFormSubmitTrace, hw, hv, runTrace, applyEvent]
  · intro w
    simp [submitButtonDisabled]

theorem submit_flag_lifecycle_witness :
    jsOptTruthy (some "WALLET1") = true ∧
    validateForm "Hello Title" "A sufficiently long description." = none ∧
    ((∃ mid,
        proposalFormSubmitTrace (some "WALLET1") "Hello Title"
            "A sufficiently long description." .failure 7 =
          [.setMessage none, .setTransactionHash none, .setBusy true,
           .fetchCall "POST" "/api/proposals"] ++ mid ++ [.setBusy false] ∧
        mid.all (fun e => !(isBusyEvent e) && !(isFetch e)) = true) ∧
      countFetches (proposalFormSubmitTrace (some "WALLET1") "Hello Title"
        "A sufficiently long description." .failure 7) = 1 ∧
      (runTrace {} (proposalFormSubmitTrace (some "WALLET1") "Hello Title"
        "A sufficiently long description." .failure 7)).busy = false ∧
      (∀ w, submitButtonDisabled true w = true)) :=
  ⟨by decide, by decide,
    submit_flag_lifecycle {} (some "WALLET1") (by decide) "Hello Title"
      "A sufficiently long description." (by decide) .failure 7⟩

/-- Claim C7: every thrown exception during a handler's network call is
caught: a user-facing error message is set, the error is logged via
`console.error`, and no retry happens — each invocation issues at most
one fetch to its mutating endpoint, whatever the outcome. -/
theorem exception_caught_and_not_retried (s0 : UIState)
    (walletAddress : Option String) (hw : jsOptTruthy walletAddress = true)
    (title description : String) (hv : validateForm title description = none)
    (refreshNet detailsNet listNet : FetchResult)
    (proposalId : Nat) (vote : String) (now : Nat) :
    ((runTrace s0 (proposalFormSubmitTrace walletAddress title description .failure now)).message
        = some networkErrorMsg ∧
      countConsoleErrors (proposalFormSubmitTrace walletAddress title description .failure now) = 1 ∧
      countMutatingFetches "/api/proposals"
        (proposalFormSubmitTrace walletAddress title description .failure now) = 1) ∧
    ((runTrace s0 (handleVoteTrace walletAddress proposalId vote .failure detailsNet listNet now)).message
        = some networkErrorMsg ∧
      countConsoleErrors (handleVoteTrace walletAddress proposalId vote .failure detailsNet listNet now) = 1 ∧
      countMutatingFetches "/api/vote"
        (handleVoteTrace walletAddress proposalId vote .failure detailsNet listNet now) = 1) ∧
    ((runTrace s0 (markAttendanceTrace walletAddress .failure refreshNet now)).message
        = some networkErrorMsg ∧
      countConsoleErrors (markAttendanceTrace walletAddress .failure refreshNet now) = 1 ∧
      countMutatingFetches "/api/attendance"
        (markAttendanceTrace walletAddress .failure refreshNet now) = 1) ∧
    (∀ net, countMutatingFetches "/api/proposals"
        (proposalFormSubmitTrace walletAddress title description net now) ≤ 1) ∧
    (∀ net, countMutatingFetches "/api/vote"
        (handleVoteTrace walletAddress proposalId vote net detailsNet listNet now) ≤ 1) ∧
    (∀ net, countMutatingFetches "/api/attendance"
        (markAttendanceTrace walletAddress net refreshNet now) ≤ 1) := by
  refine ⟨?_, ?_, ?_, ?_, ?_, ?_⟩
  · refine ⟨?_, ?_, ?_⟩ <;>
      simp [proposalFormSubmitTrace, hw, hv, runTrace, applyEvent,
        countConsoleErrors, isConsoleError, countMutatingFetches,
        isMutatingFetch, List.filter]
  · refine ⟨?_, ?_, ?_⟩ <;>
      simp [handleVoteTrace, hw, runTrace, applyEvent, countConsoleErrors,
        isConsoleError, countMutatingFetches, isMutatingFetch, List.filter]
  · refine ⟨?_, ?_, ?_⟩ <;>
      simp [markAttendanceTrace, hw, runTrace, applyEvent, countConsoleErrors,
        isConsoleError, countMutatingFetches, isMutatingFetch, List.filter]
  · intro net
    cases net with
    | success resp =>
      by_cases h : resp.ok <;>
        simp [proposalFormSubmitTrace, hw, hv, h, countMutatingFetches,
          isMutatingFetch, List.filter]
    | failure =>
      simp [proposalFormSubmitTrace, hw, hv, countMutatingFetches,
        isMutatingFetch, List.filter]
  · intro net
    cases net with
    | success resp =>
      by_cases h : resp.ok
      · cases detailsNet with
        | success r2 =>
          cases listNet with
          | success r3 =>
            by_cases h2 : r2.ok <;> by_cases h3 : r3.ok <;>
              simp [handleVoteTrace, fetchProposalDetailsTrace,
                fetchProposalsTrace, hw, h, h2, h3, countMutatingFetches,
                isMutatingFetch, List.filter]
          | failure =>
            by_cases h2 : r2.ok <;>
              simp [handleVoteTrace, fetchProposalDetailsTrace,
                fetchProposalsTrace, hw, h, h2, countMutatingFetches,
                isMutatingFetch, List.filter]
        | failure =>
          cases listNet with
          | success r3 =>
            by_cases h3 : r3.ok <;>
              simp [handleVoteTrace, fetchProposalDetailsTrace,
                fetchProposalsTrace, hw, h, h3, countMutatingFetches,
                isMutatingFetch, List.filter]
          | failure =>
            simp [handleVoteTrace, fetchProposalDetailsTrace,
              fetchProposalsTrace, hw, h, countMutatingFetches,
              isMutatingFetch, List.filter]
      · simp [handleVoteTrace, hw, h, countMutatingFetches, isMutatingFetch,
          List.filter]
    | failure =>
      simp [handleVoteTrace, hw, countMutatingFetches, isMutatingFetch,
        List.filter]
  · intro net
    cases net with
    | success resp =>
      by_cases h : resp.ok
      · cases refreshNet with
        | success r2 =>
          by_cases h2 : r2.ok <;>
            simp [markAttendanceTrace, fetchAttendanceStatusTrace, hw, h, h2,
              countMutatingFetches, isMutatingFetch, List.filter]
        | failure =>
          simp [markAttendanceTrace, fetchAttendanceStatusTrace, hw, h,
            countMutatingFetches, isMutatingFetch, List.filter]
      · simp [markAttendanceTrace, hw, h, countMutatingFetches,
          isMutatingFetch, List.filter]
    | failure =>
      simp [markAttendanceTrace, hw, countMutatingFetches, isMutatingFetch,
        List.filter]

theorem exception_caught_and_not_retried_witness :
    jsOptTruthy (some "WALLET1") = true ∧
    validateForm "Hello Title" "A sufficiently long description." = none ∧
    (((runTrace {} (proposalFormSubmitTrace (some "WALLET1") "Hello Title"
          "A sufficiently long description." .failure 7)).message
            = some networkErrorMsg ∧
        countConsoleErrors (proposalFormSubmitTrace (some "WALLET1") "Hello Title"
          "A sufficiently long description." .failure 7) = 1 ∧
        countMutatingFetches "/api/proposals"
          (proposalFormSubmitTrace (some "WALLET1") "Hello Title"
            "A sufficiently long description." .failure 7) = 1) ∧
      ((runTrace {} (handleVoteTrace (some "WALLET1") 3 "yes" .failure
          (.success { ok := true }) (.success { ok := true }) 7)).message
            = some networkErrorMsg ∧
        countConsoleErrors (handleVoteTrace (some "WALLET1") 3 "yes" .failure
          (.success { ok := true }) (.success { ok := true }) 7) = 1 ∧
        countMutatingFetches "/api/vote"
          (handleVoteTrace (some "WALLET1") 3 "yes" .failure
            (.success { ok := true }) (.success { ok := true }) 7) = 1) ∧
      ((runTrace {} (markAttendanceTrace (some "WALLET1") .failure
          (.success { ok := true }) 7)).message = some networkErrorMsg ∧
        countConsoleErrors (markAttendanceTrace (some "WALLET1") .failure
          (.success { ok := true }) 7) = 1 ∧
        countMutatingFetches "/api/attendance"
          (markAttendanceTrace (some "WALLET1") .failure
            (.success { ok := true }) 7) = 1) ∧
      (∀ net, countMutatingFetches "/api/proposals"
          (proposalFormSubmitTrace (some "WALLET1") "Hello Title"
            "A sufficiently long description." net 7) ≤ 1) ∧
      (∀ net, countMutatingFetches "/api/vote"
          (handleVoteTrace (some "WALLET1") 3 "yes" net
            (.success { ok := true }) (.success { ok := true }) 7) ≤ 1) ∧
      (∀ net, countMutatingFetches "/api/attendance"
          (markAttendanceTrace (some "WALLET1") net
            (.success { ok := true }) 7) ≤ 1)) :=
  ⟨by decide, by decide,
    exception_caught_and_not_retried {} (some "WALLET1") (by decide)
      "Hello Title" "A sufficiently long description." (by decide)
      (.success { ok := true }) (.success { ok := true })
      (.success { ok := true }) 3 "yes" 7⟩

/-- Claim C8: for every input string, `AIService.getSentiment` returns a
score that is at least −1 and at most 1: the keyword-counted score is
clamped to [−1, 1] before being returned. -/
theorem getSentiment_clamped (proposalText : String) :
    -1 ≤ getSentiment proposalText ∧ getSentiment proposalText ≤ 1 := by
  unfold getSentiment
  exact ⟨le_min (le_max_right _ _) (by norm_num), min_le_right _ _⟩

/-- Claim C9: vote-percentage rendering never divides by zero — in the
vanilla app's `ProposalDetail`, when `votesYes + votesNo = 0` both
displayed percentages are 0, and in `VotingPanel` the progress-bar width
denominator `Math.max(yesVotes + noVotes, 1)` is at least 1 for every
proposal. -/
theorem percentages_never_divide_by_zero (votesYes votesNo : Nat)
    (h : votesYes + votesNo = 0) (yesVotes noVotes : Option Nat) :
    proposalDetailYesPercent votesYes votesNo = 0 ∧
    proposalDetailNoPercent votesYes votesNo = 0 ∧
    1 ≤ votingBarDenominator yesVotes noVotes := by
  refine ⟨?_, ?_, ?_⟩
  · simp [proposalDetailYesPercent, h]
  · simp [proposalDetailNoPercent, h]
  · exact le_max_right _ _

theorem percentages_never_divide_by_zero_witness :
    0 + 0 = 0 ∧
    (proposalDetailYesPercent 0 0 = 0 ∧
      proposalDetailNoPercent 0 0 = 0 ∧
      1 ≤ votingBarDenominator (some 3) none) :=
  ⟨rfl, percentages_never_divide_by_zero 0 0 rfl (some 3) none⟩

/-- Helper: when no proposal id matches, `submitVoteUpdate` is the
identity. -/
theorem submitVoteUpdate_no_match (ps : List MockProposal) (pid : Nat)
    (vote : String) (h : ∀ q ∈ ps, (q.id == pid) = false) :
    submitVoteUpdate ps pid vote = ps := by
  induction ps with
  | nil => rfl
  | cons p t ih =>
    have hp := h p (List.mem_cons_self p t)
    simp [submitVoteUpdate, hp]
    exact ih fun q hq => h q (List.mem_cons_of_mem p hq)

/-- Helper: `submitVoteUpdate` rewrites exactly the first matching
proposal and leaves both of its surroundings untouched. -/
theorem submitVoteUpdate_first_match (a : List MockProposal)
    (p : MockProposal) (b : List MockProposal) (pid : Nat) (vote : String)
    (ha : ∀ q ∈ a, (q.id == pid) = false) (hp : (p.id == pid) = true) :
    submitVoteUpdate (a ++ p :: b) pid vote =
      a ++ (if vote == "yes" then { p with votesYes := p.votesYes + 1 }
            else { p with votesNo := p.votesNo + 1 }) :: b := by
  induction a with
  | nil => simp [submitVoteUpdate, hp]
  | cons q t ih =>
    have hq := ha q (List.mem_cons_self q t)
    simp [submitVoteUpdate, hq]
    simpa using ih fun r hr => ha r (List.mem_cons_of_mem q hr)

/-- Claim C10: for every connected-wallet store state and proposal list,
`BlockchainService.submitVote` increments exactly one tally of exactly
one proposal — the first one whose id matches gets `votesYes` + 1 when
the vote is "yes" and `votesNo` + 1 otherwise, with its other tally and
every other field of every proposal unchanged; with no matching id the
proposal list is unchanged. -/
theorem submitVote_updates_exactly_one_tally (st : VoteStoreState)
    (h : st.isConnected = true) (proposalId : Nat) (vote : String) :
    ((∀ q ∈ st.proposals, (q.id == proposalId) = false) →
      (submitVote st proposalId vote).proposals = st.proposals) ∧
    (∀ a p b, st.proposals = a ++ p :: b →
      (∀ q ∈ a, (q.id == proposalId) = false) → (p.id == proposalId) = true →
      ∃ p', (submitVote st proposalId vote).proposals = a ++ p' :: b ∧
        p'.id = p.id ∧ p'.title = p.title ∧ p'.description = p.description ∧
        p'.creator = p.creator ∧ p'.status = p.status ∧
        p'.deadline = p.deadline ∧ p'.quorum = p.quorum ∧
        p'.category = p.category ∧ p'.comments = p.comments ∧
        (vote = "yes" → p'.votesYes = p.votesYes + 1 ∧ p'.votesNo = p.votesNo) ∧
        (¬ vote = "yes" → p'.votesNo = p.votesNo + 1 ∧ p'.votesYes = p.votesYes)) := by
  constructor
  · intro hnone
    simp [submitVote, h, submitVoteUpdate_no_match st.proposals proposalId vote hnone]
  · intro a p b hps ha hp
    by_cases hv : vote = "yes"
    · refine ⟨{ p with votesYes := p.votesYes + 1 }, ?_, rfl, rfl, rfl, rfl,
        rfl, rfl, rfl, rfl, rfl, fun _ => ⟨rfl, rfl⟩, fun hne => absurd hv hne⟩
      rw [submitVote, if_neg (by simp [h]), hps,
        submitVoteUpdate_first_match a p b proposalId vote ha hp]
      simp [hv]
    · refine ⟨{ p with votesNo := p.votesNo + 1 }, ?_, rfl, rfl, rfl, rfl,
        rfl, rfl, rfl, rfl, rfl, fun hy => absurd hy hv, fun _ => ⟨rfl, rfl⟩⟩
      rw [submitVote, if_neg (by simp [h]), hps,
        submitVoteUpdate_first_match a p b proposalId vote ha hp]
      simp [hv]

theorem submitVote_updates_exactly_one_tally_witness :
    VoteStoreState.isConnected
      ⟨true, [⟨1042, "t1", "d1", "c1", "Active", 0, 840, 120, 2000, "Infra", 45⟩,
              ⟨1041, "t2", "d2", "c2", "Active", 0, 300, 450, 2000, "Serv", 122⟩], 0⟩
      = true ∧
    (∃ p', (submitVote
        ⟨true, [⟨1042, "t1", "d1", "c1", "Active", 0, 840, 120, 2000, "Infra", 45⟩,
                ⟨1041, "t2", "d2", "c2", "Active", 0, 300, 450, 2000, "Serv", 122⟩], 0⟩
        1041 "yes").proposals
        = [⟨1042, "t1", "d1", "c1", "Active", 0, 840, 120, 2000, "Infra", 45⟩] ++ p' ::
          ([] : List MockProposal) ∧
      p'.id = 1041 ∧ p'.title = "t2" ∧ p'.description = "d2" ∧
      p'.creator = "c2" ∧ p'.status = "Active" ∧ p'.deadline = 0 ∧
      p'.quorum = 2000 ∧ p'.category = "Serv" ∧ p'.comments = 122 ∧
      ("yes" = "yes" → p'.votesYes = 300 + 1 ∧ p'.votesNo = 450) ∧
      (¬ "yes" = "yes" → p'.votesNo = 450 + 1 ∧ p'.votesYes = 300)) :=
  ⟨rfl,
    (submitVote_updates_exactly_one_tally
      ⟨true, [⟨1042, "t1", "d1", "c1", "Active", 0, 840, 120, 2000, "Infra", 45⟩,
              ⟨1041, "t2", "d2", "c2", "Active", 0, 300, 450, 2000, "Serv", 122⟩], 0⟩
      rfl 1041 "yes").2
      [⟨1042, "t1", "d1", "c1", "Active", 0, 840, 120, 2000, "Infra", 45⟩]
      ⟨1041, "t2", "d2", "c2", "Active", 0, 300, 450, 2000, "Serv", 122⟩ []
      rfl (by decide) (by decide)⟩

end TrustChain
